import Mathlib

/-!
Shallow embedding of the analytical core of `src/Finance.py`:
breakout detection and trade simulation (`analyze_breakouts`, lines 44-79)
and summary statistics (`create_summary_stats`, lines 82-104).

Modelling decisions, all taken from the source:
* Prices and volumes are embedded as exact rationals.  The float division
  of the source never raises (numpy float division by zero yields a
  non-finite value, it does not throw), so division is embedded as the
  total rational division of Lean (`x / 0 = 0`).  No claim below is decided
  by the value of a division by zero; where a zero denominator matters the
  statement carries an explicit nonzero hypothesis.
* Python `round(x, 2)` and `pd.Series.round(2)` are embedded as `round2`
  (round-half-up via Mathlib `round`; Python rounds the tie half to even -
  no statement below depends on a tie at exactly half a cent).
* The pandas frame is a structure; the three derived columns assigned at
  lines 48-50 are `Option`-valued fields that are `none` before assignment
  (a column not present), with `Option ℚ` entries where `none` embeds NaN.
  `df[col] = ...` mutates the frame of the caller in place; the embedding
  passes that state explicitly: `analyze_breakouts` returns the updated
  frame together with the record list.
* `df[breakout_condition].index` iterates the qualifying dates in index
  order and `df.index.get_loc` recovers the position; dates are unique and
  increasing per the data model, so the embedding iterates positions
  directly.  For a nonnegative holding period no statement of the loop
  body can raise (lookups are in range after the `min` clamp, and float
  division does not throw), hence the `except` branch at line 75 is dead
  and every qualifying day yields a record.
* The holding period is embedded as `ℕ` (the source widget hands the core
  an `int`; a negative one would additionally index from the end of the
  frame, which is not modelled - the parameter-validation claim is settled
  at the representable invalid value `0`).
-/

/-- A pandas DataFrame as handed to / mutated by `analyze_breakouts`:
base columns `date`, `close`, `volume`, and the three derived columns of
lines 48-50, absent (`none`) until assigned, with NaN entries as `none`. -/
structure Df where
  date : List ℕ
  close : List ℚ
  volume : List ℚ
  Volume_MA20 : Option (List (Option ℚ))
  Daily_Return : Option (List (Option ℚ))
  Volume_Ratio : Option (List (Option ℚ))
deriving DecidableEq

/-- Number of rows, `len(df)`. -/
def Df.n (df : Df) : ℕ := df.date.length

/-- The `Volume` column at position `t`. -/
def Df.vol (df : Df) (t : ℕ) : ℚ := df.volume.getD t 0

/-- The `Close` column at position `t`. -/
def Df.cl (df : Df) (t : ℕ) : ℚ := df.close.getD t 0

/-- The date label at position `t`. -/
def Df.dateAt (df : Df) (t : ℕ) : ℕ := df.date.getD t 0

/-- Line 48: `df['Volume'].rolling(window=20).mean()` at position `t` -
NaN (`none`) for the first 19 positions, else the arithmetic mean of the
20 positions `t - 19, ..., t`. -/
def volumeMA20At (df : Df) (t : ℕ) : Option ℚ :=
  if 19 ≤ t then some ((∑ i ∈ Finset.range 20, df.vol (t - i)) / 20) else none

/-- Line 49: `df['Close'].pct_change()` at position `t` - NaN (`none`) at
position 0, else the relative change from the previous close. -/
def dailyReturnAt (df : Df) (t : ℕ) : Option ℚ :=
  if 1 ≤ t then some ((df.cl t - df.cl (t - 1)) / df.cl (t - 1)) else none

/-- Line 50: `df['Volume'] / df['Volume_MA20']` at position `t` - NaN
wherever the moving average is NaN. -/
def volumeRatioAt (df : Df) (t : ℕ) : Option ℚ :=
  (volumeMA20At df t).map (fun m => df.vol t / m)

/-- Lines 52-53: `(df['Volume_Ratio'] > v/100) & (df['Daily_Return'] > p/100)`.
A comparison against NaN is `False` in pandas: the `none` branches. -/
def breakoutCond (df : Df) (vt pt : ℚ) (t : ℕ) : Bool :=
  (match volumeRatioAt df t with
   | some r => decide (vt / 100 < r)
   | none => false)
  &&
  (match dailyReturnAt df t with
   | some d => decide (pt / 100 < d)
   | none => false)

/-- Line 56: `df[breakout_condition].index`, as the list of qualifying
positions in increasing order. -/
def breakoutDays (df : Df) (vt pt : ℚ) : List ℕ :=
  (List.range df.n).filter (fun t => breakoutCond df vt pt t)

/-- Python `round(x, 2)`: the value rounded to 2 decimal places. -/
def round2 (q : ℚ) : ℚ := ((round (100 * q) : ℤ) : ℚ) / 100

/-- Line 62: `min(df.index.get_loc(breakout_day) + holding_period, len(df) - 1)`. -/
def exitIdx (df : Df) (hp t : ℕ) : ℕ := min (t + hp) (df.n - 1)

/-- One row of the results frame, lines 67-74 (dates are kept as the date
labels rather than their `strftime` rendering). -/
structure TradeRecord where
  Entry_Date : ℕ
  Entry_Price : ℚ
  Exit_Date : ℕ
  Exit_Price : ℚ
  Return_Pct : ℚ
  Volume_Ratio : ℚ
deriving DecidableEq

/-- Lines 60-74: the record built for the qualifying position `t`. -/
def mkRecord (df : Df) (hp t : ℕ) : TradeRecord :=
  let e := exitIdx df hp t
  { Entry_Date := df.dateAt t
    Entry_Price := round2 (df.cl t)
    Exit_Date := df.dateAt e
    Exit_Price := round2 (df.cl e)
    Return_Pct := round2 ((df.cl e - df.cl t) / df.cl t * 100)
    Volume_Ratio := round2 ((volumeRatioAt df t).getD 0) }

/-- Lines 44-79, `analyze_breakouts`: assigns the three derived columns
into the frame of the caller (returned as the first component, since the
source mutates `df` in place) and returns one record per qualifying day,
in index order. -/
def analyze_breakouts (df : Df) (vt pt : ℚ) (hp : ℕ) : Df × List TradeRecord :=
  ({ df with
      Volume_MA20 := some ((List.range df.n).map (volumeMA20At df))
      Daily_Return := some ((List.range df.n).map (dailyReturnAt df))
      Volume_Ratio := some ((List.range df.n).map (volumeRatioAt df)) },
   (breakoutDays df vt pt).map (mkRecord df hp))

/-- `max()` of a pandas column (nonempty in every use below). -/
def listMax : List ℚ → ℚ
  | [] => 0
  | x :: xs => xs.foldl max x

/-- `min()` of a pandas column (nonempty in every use below). -/
def listMin : List ℚ → ℚ
  | [] => 0
  | x :: xs => xs.foldl min x

/-- The sample variance with `N - 1` denominator used inside pandas
`Series.std()` (mean taken exactly). -/
def sampleVar (l : List ℚ) : ℚ :=
  ((l.map (fun x => (x - l.sum / (l.length : ℚ)) ^ 2)).sum) / ((l.length : ℚ) - 1)

/-- Rounding to 2 decimal places over the reals (for the standard
deviation, the one field that needs a square root). -/
noncomputable def round2R (x : ℝ) : ℝ := ((round (100 * x) : ℤ) : ℝ) / 100

/-- Line 102: `results_df['Return_Pct'].std()` - pandas sample standard
deviation (`ddof = 1`), NaN (`none`) when fewer than two values exist. -/
noncomputable def seriesStd (l : List ℚ) : Option ℝ :=
  if 2 ≤ l.length then some (Real.sqrt ((sampleVar l : ℚ) : ℝ)) else none

/-- The six summary fields of lines 86-104.  `Std_Dev` is `Option`-valued:
`none` embeds the NaN that pandas `std` yields on a single record. -/
structure SummaryStats where
  Total_Trades : ℕ
  Win_Rate : ℚ
  Average_Return : ℚ
  Max_Return : ℚ
  Min_Return : ℚ
  Std_Dev : Option ℝ

/-- Lines 86-104 on the `Return_Pct` column: the explicit all-zero branch
for an empty frame (line 86, `Std_Dev` the number 0 there), else the six
statistics, each rounded to 2 decimal places by line 104
(`round` of NaN is NaN: `Option.map`). -/
noncomputable def statsOfReturns (l : List ℚ) : SummaryStats :=
  if l.length = 0 then
    { Total_Trades := 0, Win_Rate := 0, Average_Return := 0,
      Max_Return := 0, Min_Return := 0, Std_Dev := some 0 }
  else
    { Total_Trades := l.length
      Win_Rate := round2 (((l.countP fun x => decide (0 < x) : ℕ) : ℚ) / (l.length : ℚ) * 100)
      Average_Return := round2 (l.sum / (l.length : ℚ))
      Max_Return := round2 (listMax l)
      Min_Return := round2 (listMin l)
      Std_Dev := (seriesStd l).map round2R }

/-- Lines 82-104, `create_summary_stats`: the statistics are computed from
the `Return_Pct` values exactly as stored in the records. -/
noncomputable def create_summary_stats (rs : List TradeRecord) : SummaryStats :=
  statsOfReturns (rs.map (fun r => r.Return_Pct))

/-- A 25-day frame as delivered by the provider (derived columns absent):
flat at close 100 / volume 1 for the first 20 days, then a spike at
position 20 (close 110, volume 30) followed by four flat days at 120. -/
def dfSpike : Df :=
  { date := List.range 25
    close := [100, 100, 100, 100, 100, 100, 100, 100, 100, 100,
              100, 100, 100, 100, 100, 100, 100, 100, 100, 100,
              110, 120, 120, 120, 120]
    volume := [1, 1, 1, 1, 1, 1, 1, 1, 1, 1,
               1, 1, 1, 1, 1, 1, 1, 1, 1, 1,
               30, 1, 1, 1, 1]
    Volume_MA20 := none
    Daily_Return := none
    Volume_Ratio := none }

/-- A 21-day frame whose last close is zero: with a negative price
threshold, position 20 qualifies as a breakout with entry price 0. -/
def dfZeroClose : Df :=
  { date := List.range 21
    close := [1, 1, 1, 1, 1, 1, 1, 1, 1, 1, 1, 1, 1, 1, 1, 1, 1, 1, 1, 1, 0]
    volume := [1, 1, 1, 1, 1, 1, 1, 1, 1, 1, 1, 1, 1, 1, 1, 1, 1, 1, 1, 1, 1]
    Volume_MA20 := none
    Daily_Return := none
    Volume_Ratio := none }

/-- A one-row frame as delivered by the provider. -/
def dfOneRow : Df :=
  { date := [0], close := [1], volume := [1]
    Volume_MA20 := none, Daily_Return := none, Volume_Ratio := none }

/-- The sample standard deviation as the spec words it: `N - 1`
denominator, undefined (`none`) when fewer than two values exist (the
formula divides by zero there).  Stated independently of `seriesStd`, to
be compared with it. -/
noncomputable def sampleStdSpec (l : List ℚ) : Option ℝ :=
  if 2 ≤ l.length then
    some (Real.sqrt
      (((((l.map (fun x => (x - l.sum / (l.length : ℚ)) ^ 2)).sum) / ((l.length : ℚ) - 1) : ℚ) : ℝ)))
  else none

/-! ### General helper lemmas -/

/-- Reindexing the trailing window: summing `f` over positions
`t, t-1, ..., t-19` is summing it over `t-19, ..., t`. -/
lemma window_sum (f : ℕ → ℚ) (t : ℕ) (h : 19 ≤ t) :
    (∑ i ∈ Finset.range 20, f (t - i)) = ∑ i ∈ Finset.range 20, f (t - 19 + i) := by
  rw [← Finset.sum_range_reflect]
  refine Finset.sum_congr rfl fun i hi => ?_
  have hi20 : i < 20 := Finset.mem_range.mp hi
  congr 1
  omega

/-- Positions with fewer than 20 points have a NaN moving average, hence a
NaN ratio, hence never qualify. -/
lemma breakoutCond_of_lt (df : Df) (vt pt : ℚ) (t : ℕ) (h : t < 19) :
    breakoutCond df vt pt t = false := by
  unfold breakoutCond volumeRatioAt volumeMA20At
  rw [if_neg (by omega)]
  rfl

/-- In range, the date accessor is plain list indexing. -/
lemma dateAt_eq_getElem (df : Df) (t : ℕ) (h : t < df.n) : df.dateAt t = df.date[t] := by
  unfold Df.dateAt
  rw [List.getD_eq_getElem?_getD, List.getElem?_eq_getElem h]
  rfl

lemma le_foldl_max (xs : List ℚ) (a : ℚ) : a ≤ xs.foldl max a := by
  induction xs generalizing a with
  | nil => exact le_refl a
  | cons x xs ih => exact le_trans (le_max_left a x) (ih (max a x))

lemma foldl_max_eq_or_mem (xs : List ℚ) (a : ℚ) :
    xs.foldl max a = a ∨ xs.foldl max a ∈ xs := by
  induction xs generalizing a with
  | nil => exact Or.inl rfl
  | cons x xs ih =>
    rcases ih (max a x) with h | h
    · rcases max_choice a x with hm | hm
      · exact Or.inl (by rw [List.foldl_cons, h, hm])
      · exact Or.inr (by rw [List.foldl_cons, h, hm]; exact List.mem_cons_self x xs)
    · exact Or.inr (List.mem_cons_of_mem x h)

lemma mem_le_foldl_max (xs : List ℚ) (a x : ℚ) (hx : x ∈ xs) : x ≤ xs.foldl max a := by
  induction xs generalizing a with
  | nil => cases hx
  | cons y ys ih =>
    rcases List.mem_cons.mp hx with h | h
    · subst h
      exact le_trans (le_max_right a x) (le_foldl_max ys (max a x))
    · exact ih (max a y) h

lemma listMax_mem (l : List ℚ) (h : l ≠ []) : listMax l ∈ l := by
  match l with
  | [] => exact absurd rfl h
  | x :: xs =>
    rcases foldl_max_eq_or_mem xs x with h1 | h1
    · rw [listMax, h1]; exact List.mem_cons_self x xs
    · exact List.mem_cons_of_mem x h1

lemma le_listMax (l : List ℚ) (x : ℚ) (hx : x ∈ l) : x ≤ listMax l := by
  match l with
  | [] => cases hx
  | y :: ys =>
    rcases List.mem_cons.mp hx with h | h
    · subst h; exact le_foldl_max ys x
    · exact mem_le_foldl_max ys y x h

lemma foldl_min_le (xs : List ℚ) (a : ℚ) : xs.foldl min a ≤ a := by
  induction xs generalizing a with
  | nil => exact le_refl a
  | cons x xs ih => exact le_trans (ih (min a x)) (min_le_left a x)

lemma foldl_min_eq_or_mem (xs : List ℚ) (a : ℚ) :
    xs.foldl min a = a ∨ xs.foldl min a ∈ xs := by
  induction xs generalizing a with
  | nil => exact Or.inl rfl
  | cons x xs ih =>
    rcases ih (min a x) with h | h
    · rcases min_choice a x with hm | hm
      · exact Or.inl (by rw [List.foldl_cons, h, hm])
      · exact Or.inr (by rw [List.foldl_cons, h, hm]; exact List.mem_cons_self x xs)
    · exact Or.inr (List.mem_cons_of_mem x h)

lemma foldl_min_le_mem (xs : List ℚ) (a x : ℚ) (hx : x ∈ xs) : xs.foldl min a ≤ x := by
  induction xs generalizing a with
  | nil => cases hx
  | cons y ys ih =>
    rcases List.mem_cons.mp hx with h | h
    · subst h
      exact le_trans (foldl_min_le ys (min a x)) (min_le_right a x)
    · exact ih (min a y) h

lemma listMin_mem (l : List ℚ) (h : l ≠ []) : listMin l ∈ l := by
  match l with
  | [] => exact absurd rfl h
  | x :: xs =>
    rcases foldl_min_eq_or_mem xs x with h1 | h1
    · rw [listMin, h1]; exact List.mem_cons_self x xs
    · exact List.mem_cons_of_mem x h1

lemma listMin_le (l : List ℚ) (x : ℚ) (hx : x ∈ l) : listMin l ≤ x := by
  match l with
  | [] => cases hx
  | y :: ys =>
    rcases List.mem_cons.mp hx with h | h
    · subst h; exact foldl_min_le ys x
    · exact foldl_min_le_mem ys y x h

/-! ### Evaluation of the concrete frames -/

lemma condSpike19 : breakoutCond dfSpike 200 2 19 = false := by
  norm_num [breakoutCond, volumeRatioAt, volumeMA20At, dailyReturnAt, Df.vol, Df.cl,
    dfSpike, Finset.sum_range_succ]

lemma condSpike20 : breakoutCond dfSpike 200 2 20 = true := by
  norm_num [breakoutCond, volumeRatioAt, volumeMA20At, dailyReturnAt, Df.vol, Df.cl,
    dfSpike, Finset.sum_range_succ]

lemma condSpike21 : breakoutCond dfSpike 200 2 21 = false := by
  norm_num [breakoutCond, volumeRatioAt, volumeMA20At, dailyReturnAt, Df.vol, Df.cl,
    dfSpike, Finset.sum_range_succ]

lemma condSpike22 : breakoutCond dfSpike 200 2 22 = false := by
  norm_num [breakoutCond, volumeRatioAt, volumeMA20At, dailyReturnAt, Df.vol, Df.cl,
    dfSpike, Finset.sum_range_succ]

lemma condSpike23 : breakoutCond dfSpike 200 2 23 = false := by
  norm_num [breakoutCond, volumeRatioAt, volumeMA20At, dailyReturnAt, Df.vol, Df.cl,
    dfSpike, Finset.sum_range_succ]

lemma condSpike24 : breakoutCond dfSpike 200 2 24 = false := by
  norm_num [breakoutCond, volumeRatioAt, volumeMA20At, dailyReturnAt, Df.vol, Df.cl,
    dfSpike, Finset.sum_range_succ]

/-- On the spike frame with the default thresholds, exactly the spike day
qualifies. -/
lemma breakoutDays_dfSpike : breakoutDays dfSpike 200 2 = [20] := by
  rw [breakoutDays, show dfSpike.n = 25 from rfl,
      show List.range 25 = [0, 1, 2, 3, 4, 5, 6, 7, 8, 9, 10, 11, 12, 13, 14, 15, 16,
        17, 18, 19, 20, 21, 22, 23, 24] from rfl]
  simp [List.filter_cons, breakoutCond_of_lt, condSpike19, condSpike20, condSpike21,
    condSpike22, condSpike23, condSpike24]

lemma condZero19 : breakoutCond dfZeroClose 50 (-150) 19 = true := by
  norm_num [breakoutCond, volumeRatioAt, volumeMA20At, dailyReturnAt, Df.vol, Df.cl,
    dfZeroClose, Finset.sum_range_succ]

lemma condZero20 : breakoutCond dfZeroClose 50 (-150) 20 = true := by
  norm_num [breakoutCond, volumeRatioAt, volumeMA20At, dailyReturnAt, Df.vol, Df.cl,
    dfZeroClose, Finset.sum_range_succ]

/-- On the zero-close frame with a negative price threshold, the last two
days qualify - among them position 20, whose close is 0. -/
lemma breakoutDays_dfZeroClose : breakoutDays dfZeroClose 50 (-150) = [19, 20] := by
  rw [breakoutDays, show dfZeroClose.n = 21 from rfl,
      show List.range 21 = [0, 1, 2, 3, 4, 5, 6, 7, 8, 9, 10, 11, 12, 13, 14, 15, 16,
        17, 18, 19, 20] from rfl]
  simp [List.filter_cons, breakoutCond_of_lt, condZero19, condZero20]

/-! ### Claims -/

/-- C1: a day at position `t` is classified as a breakout iff both derived
values are defined and strictly exceed the scaled thresholds - the volume
at `t` divided by the mean volume over the trailing window of positions
`t - 19, ..., t` (inclusive of `t`) strictly exceeds
`volumeThresholdPct / 100`, and the daily return against the previous
close strictly exceeds `priceThresholdPct / 100`.  Positions where either
derived value is undefined (the first 19 for the moving average, the
first for the daily return) never qualify, and both comparisons are
strict. -/
theorem c1_breakout_iff (df : Df) (vt pt : ℚ) (t : ℕ) :
    t ∈ breakoutDays df vt pt ↔
      t < df.n ∧ 19 ≤ t ∧ 1 ≤ t ∧
      vt / 100 < df.vol t / ((∑ i ∈ Finset.range 20, df.vol (t - 19 + i)) / 20) ∧
      pt / 100 < (df.cl t - df.cl (t - 1)) / df.cl (t - 1) := by
  simp only [breakoutDays, List.mem_filter, List.mem_range, breakoutCond,
    volumeRatioAt, volumeMA20At, dailyReturnAt]
  by_cases h19 : 19 ≤ t
  · by_cases h1 : 1 ≤ t
    · rw [← window_sum df.vol t h19]
      simp [h19, h1, and_assoc]
    · simp [h19, h1]
  · simp [h19]

lemma mem20_dfSpike : 20 ∈ breakoutDays dfSpike 200 2 := by
  rw [breakoutDays_dfSpike]; exact List.mem_singleton.mpr rfl

lemma mem20_dfZeroClose : 20 ∈ breakoutDays dfZeroClose 50 (-150) := by
  rw [breakoutDays_dfZeroClose]
  exact List.mem_cons_of_mem _ (List.mem_singleton.mpr rfl)

/-- C2: for every qualifying position `t` and positive holding period, the
record for `t` is emitted (a breakout near the end of the series is not
dropped) and exits at position `min (t + holdingPeriod) lastIndex`: the
exit index exceeds the entry index by exactly the holding period unless
that would pass the last index, in which case it is the last index; in
the degenerate case where the exit position equals `t`, the stored return
is 0. -/
theorem c2_exit_clamped (df : Df) (vt pt : ℚ) (hp : ℕ) (hhp : 1 ≤ hp)
    (t : ℕ) (ht : t ∈ breakoutDays df vt pt) :
    mkRecord df hp t ∈ (analyze_breakouts df vt pt hp).2 ∧
    (mkRecord df hp t).Exit_Date = df.dateAt (min (t + hp) (df.n - 1)) ∧
    (t + hp ≤ df.n - 1 → exitIdx df hp t - t = hp) ∧
    (df.n - 1 < t + hp → exitIdx df hp t = df.n - 1) ∧
    (exitIdx df hp t = t → df.cl t ≠ 0 → (mkRecord df hp t).Return_Pct = 0) := by
  refine ⟨List.mem_map_of_mem _ ht, rfl, ?_, ?_, ?_⟩
  · intro h; rw [exitIdx]; omega
  · intro h; rw [exitIdx]; omega
  · intro he hne
    show round2 ((df.cl (exitIdx df hp t) - df.cl t) / df.cl t * 100) = 0
    rw [he]
    simp [round2]

/-- Witness for C2: on the spike frame, position 20 qualifies and with a
10-day holding period the exit clamps to the last index 24. -/
theorem c2_exit_clamped_witness :
    (1 ≤ 10 ∧ 20 ∈ breakoutDays dfSpike 200 2) ∧
    (mkRecord dfSpike 10 20 ∈ (analyze_breakouts dfSpike 200 2 10).2 ∧
     (mkRecord dfSpike 10 20).Exit_Date = dfSpike.dateAt (min (20 + 10) (dfSpike.n - 1)) ∧
     (20 + 10 ≤ dfSpike.n - 1 → exitIdx dfSpike 10 20 - 20 = 10) ∧
     (dfSpike.n - 1 < 20 + 10 → exitIdx dfSpike 10 20 = dfSpike.n - 1) ∧
     (exitIdx dfSpike 10 20 = 20 → dfSpike.cl 20 ≠ 0 →
       (mkRecord dfSpike 10 20).Return_Pct = 0)) :=
  ⟨⟨by norm_num, mem20_dfSpike⟩,
   c2_exit_clamped dfSpike 200 2 10 (by norm_num) 20 mem20_dfSpike⟩

/-- C3: every emitted record is the record of some qualifying position `t`
and, when the entry close is nonzero, its stored return percentage is the
raw return times 100 rounded to 2 decimal places; the stored entry price,
exit price and volume ratio are the raw values rounded to 2 decimal
places; and the summary statistics are computed from exactly those
per-day rounded stored values. -/
theorem c3_rounded_fields (df : Df) (vt pt : ℚ) (hp : ℕ) (r : TradeRecord)
    (hr : r ∈ (analyze_breakouts df vt pt hp).2) :
    (∃ t ∈ breakoutDays df vt pt,
      r = mkRecord df hp t ∧
      (df.cl t ≠ 0 →
        r.Return_Pct = round2 ((df.cl (exitIdx df hp t) - df.cl t) / df.cl t * 100)) ∧
      r.Entry_Price = round2 (df.cl t) ∧
      r.Exit_Price = round2 (df.cl (exitIdx df hp t)) ∧
      r.Volume_Ratio = round2 ((volumeRatioAt df t).getD 0)) ∧
    create_summary_stats (analyze_breakouts df vt pt hp).2 =
      statsOfReturns ((breakoutDays df vt pt).map
        (fun t => round2 ((df.cl (exitIdx df hp t) - df.cl t) / df.cl t * 100))) := by
  constructor
  · obtain ⟨t, ht, rfl⟩ := List.mem_map.mp hr
    exact ⟨t, ht, rfl, fun _ => rfl, rfl, rfl, rfl⟩
  · rw [create_summary_stats,
      show (analyze_breakouts df vt pt hp).2 =
        (breakoutDays df vt pt).map (mkRecord df hp) from rfl,
      List.map_map]
    rfl

/-- Witness for C3 at the spike frame and its single emitted record. -/
theorem c3_rounded_fields_witness :
    mkRecord dfSpike 10 20 ∈ (analyze_breakouts dfSpike 200 2 10).2 ∧
    ((∃ t ∈ breakoutDays dfSpike 200 2,
      mkRecord dfSpike 10 20 = mkRecord dfSpike 10 t ∧
      (dfSpike.cl t ≠ 0 →
        (mkRecord dfSpike 10 20).Return_Pct =
          round2 ((dfSpike.cl (exitIdx dfSpike 10 t) - dfSpike.cl t) / dfSpike.cl t * 100)) ∧
      (mkRecord dfSpike 10 20).Entry_Price = round2 (dfSpike.cl t) ∧
      (mkRecord dfSpike 10 20).Exit_Price = round2 (dfSpike.cl (exitIdx dfSpike 10 t)) ∧
      (mkRecord dfSpike 10 20).Volume_Ratio = round2 ((volumeRatioAt dfSpike t).getD 0)) ∧
    create_summary_stats (analyze_breakouts dfSpike 200 2 10).2 =
      statsOfReturns ((breakoutDays dfSpike 200 2).map
        (fun t => round2 ((dfSpike.cl (exitIdx dfSpike 10 t) - dfSpike.cl t) / dfSpike.cl t * 100)))) :=
  ⟨List.mem_map_of_mem _ mem20_dfSpike,
   c3_rounded_fields dfSpike 200 2 10 (mkRecord dfSpike 10 20)
     (List.mem_map_of_mem _ mem20_dfSpike)⟩

/-- C4: the detector emits exactly one record per qualifying day - the
output is the map of the record constructor over the list of qualifying
positions, so consecutive or overlapping breakout windows are neither
deduplicated nor merged - and when the input dates are strictly
increasing (as the data model guarantees) the emitted records are in
strictly ascending entry-date order. -/
theorem c4_one_record_per_day_ordered (df : Df) (vt pt : ℚ) (hp : ℕ)
    (hdates : df.date.Pairwise (· < ·)) :
    (analyze_breakouts df vt pt hp).2 = (breakoutDays df vt pt).map (mkRecord df hp) ∧
    ((analyze_breakouts df vt pt hp).2).length = (breakoutDays df vt pt).length ∧
    (((analyze_breakouts df vt pt hp).2).map (fun r => r.Entry_Date)).Pairwise (· < ·) := by
  refine ⟨rfl, by simp [analyze_breakouts], ?_⟩
  have hmem : ∀ s ∈ breakoutDays df vt pt, s < df.n := fun s hs =>
    List.mem_range.mp (List.mem_filter.mp hs).1
  have hpw : (breakoutDays df vt pt).Pairwise (· < ·) :=
    (List.pairwise_lt_range _).sublist (List.filter_sublist _)
  have hdp : (breakoutDays df vt pt).Pairwise (fun a b => df.dateAt a < df.dateAt b) := by
    refine List.Pairwise.imp_of_mem ?_ hpw
    intro a b ha hb hab
    have hA : a < df.n := hmem a ha
    have hB : b < df.n := hmem b hb
    rw [dateAt_eq_getElem df a hA, dateAt_eq_getElem df b hB]
    exact List.pairwise_iff_getElem.mp hdates a b hA hB hab
  rw [show (analyze_breakouts df vt pt hp).2 =
        (breakoutDays df vt pt).map (mkRecord df hp) from rfl, List.map_map]
  exact List.pairwise_map.mpr hdp

/-- Witness for C4 at the spike frame, whose dates are `0, ..., 24`. -/
theorem c4_one_record_per_day_ordered_witness :
    dfSpike.date.Pairwise (· < ·) ∧
    ((analyze_breakouts dfSpike 200 2 10).2 =
      (breakoutDays dfSpike 200 2).map (mkRecord dfSpike 10) ∧
    ((analyze_breakouts dfSpike 200 2 10).2).length = (breakoutDays dfSpike 200 2).length ∧
    (((analyze_breakouts dfSpike 200 2 10).2).map (fun r => r.Entry_Date)).Pairwise (· < ·)) :=
  ⟨List.pairwise_lt_range 25,
   c4_one_record_per_day_ordered dfSpike 200 2 10 (List.pairwise_lt_range 25)⟩

lemma statsOfReturns_ne_nil (l : List ℚ) (h : l ≠ []) :
    statsOfReturns l =
      { Total_Trades := l.length
        Win_Rate := round2 (((l.countP fun x => decide (0 < x) : ℕ) : ℚ) / (l.length : ℚ) * 100)
        Average_Return := round2 (l.sum / (l.length : ℚ))
        Max_Return := round2 (listMax l)
        Min_Return := round2 (listMin l)
        Std_Dev := (seriesStd l).map round2R } := by
  unfold statsOfReturns
  rw [if_neg (by simpa using h)]

/-- C5: on a nonempty record collection the aggregator returns the record
count; the fraction of strictly positive returns times 100; the
arithmetic mean of the returns; the maximum and minimum of the returns (a
member that bounds all members); and the sample standard deviation with
`N - 1` denominator as the spec words it (undefined on one record, as is
that formula); each of the six rounded to 2 decimal places. -/
theorem c5_summary_formulas (rs : List TradeRecord) (h : rs ≠ []) :
    (create_summary_stats rs).Total_Trades = rs.length ∧
    (create_summary_stats rs).Win_Rate =
      round2 ((((rs.map fun r => r.Return_Pct).countP fun x => decide (0 < x) : ℕ) : ℚ)
        / (rs.length : ℚ) * 100) ∧
    (create_summary_stats rs).Average_Return =
      round2 ((rs.map fun r => r.Return_Pct).sum / (rs.length : ℚ)) ∧
    ((create_summary_stats rs).Max_Return = round2 (listMax (rs.map fun r => r.Return_Pct)) ∧
      listMax (rs.map fun r => r.Return_Pct) ∈ rs.map (fun r => r.Return_Pct) ∧
      ∀ x ∈ rs.map (fun r => r.Return_Pct), x ≤ listMax (rs.map fun r => r.Return_Pct)) ∧
    ((create_summary_stats rs).Min_Return = round2 (listMin (rs.map fun r => r.Return_Pct)) ∧
      listMin (rs.map fun r => r.Return_Pct) ∈ rs.map (fun r => r.Return_Pct) ∧
      ∀ x ∈ rs.map (fun r => r.Return_Pct), listMin (rs.map fun r => r.Return_Pct) ≤ x) ∧
    (create_summary_stats rs).Std_Dev =
      (sampleStdSpec (rs.map fun r => r.Return_Pct)).map round2R := by
  have hnil : rs.map (fun r => r.Return_Pct) ≠ [] := by
    rw [Ne, List.map_eq_nil_iff]; exact h
  have hlen : (rs.map fun r => r.Return_Pct).length = rs.length := List.length_map _ _
  have hstats := statsOfReturns_ne_nil (rs.map fun r => r.Return_Pct) hnil
  have hcs : create_summary_stats rs = statsOfReturns (rs.map fun r => r.Return_Pct) := rfl
  have hspec : seriesStd (rs.map fun r => r.Return_Pct) =
      sampleStdSpec (rs.map fun r => r.Return_Pct) := rfl
  rw [hcs, hstats]
  refine ⟨hlen, by rw [hlen], by rw [hlen], ⟨rfl, ?_, ?_⟩, ⟨rfl, ?_, ?_⟩, by rw [← hspec]⟩
  · exact listMax_mem _ hnil
  · exact fun x hx => le_listMax _ x hx
  · exact listMin_mem _ hnil
  · exact fun x hx => listMin_le _ x hx

/-- Witness for C5 on a concrete two-record collection. -/
theorem c5_summary_formulas_witness :
    ([⟨0, 1, 1, 2, 5, 1⟩, ⟨2, 1, 3, 2, -3, 1⟩] : List TradeRecord) ≠ [] ∧
    (create_summary_stats [⟨0, 1, 1, 2, 5, 1⟩, ⟨2, 1, 3, 2, -3, 1⟩]).Total_Trades =
      ([⟨0, 1, 1, 2, 5, 1⟩, ⟨2, 1, 3, 2, -3, 1⟩] : List TradeRecord).length :=
  ⟨by simp,
   (c5_summary_formulas [⟨0, 1, 1, 2, 5, 1⟩, ⟨2, 1, 3, 2, -3, 1⟩] (by simp)).1⟩

/-- C6: a series with fewer than 20 points (in particular an empty one)
yields an empty record sequence without error, and the aggregator on an
empty collection returns the all-zero statistics through its explicit
empty branch - in particular `Std_Dev` is the number 0 there, not the NaN
that the empty-collection arithmetic would give. -/
theorem c6_short_series (df : Df) (vt pt : ℚ) (hp : ℕ) (h : df.n < 20) :
    (analyze_breakouts df vt pt hp).2 = [] ∧
    create_summary_stats [] =
      { Total_Trades := 0, Win_Rate := 0, Average_Return := 0,
        Max_Return := 0, Min_Return := 0, Std_Dev := some 0 } := by
  constructor
  · show (breakoutDays df vt pt).map (mkRecord df hp) = []
    rw [List.map_eq_nil_iff]
    unfold breakoutDays
    rw [List.filter_eq_nil_iff]
    intro t htr
    have h19 : t < 19 := by have := List.mem_range.mp htr; omega
    simp [breakoutCond_of_lt df vt pt t h19]
  · rfl

/-- Witness for C6 at the one-row frame. -/
theorem c6_short_series_witness :
    dfOneRow.n < 20 ∧ (analyze_breakouts dfOneRow 200 2 10).2 = [] :=
  ⟨by decide, (c6_short_series dfOneRow 200 2 10 (by decide)).1⟩

/-- C7 counterexample: on the zero-close frame with thresholds
`(50, -150)`, position 20 qualifies as a breakout, its entry close is 0,
and the detector still emits a record whose entry date is day 20 - the
day is not skipped as the claim asserts. -/
theorem c7_counterexample :
    dfZeroClose.cl 20 = 0 ∧
    20 ∈ breakoutDays dfZeroClose 50 (-150) ∧
    ∃ r ∈ (analyze_breakouts dfZeroClose 50 (-150) 10).2,
      r.Entry_Date = dfZeroClose.dateAt 20 :=
  ⟨rfl, mem20_dfZeroClose,
   ⟨mkRecord dfZeroClose 10 20, List.mem_map_of_mem _ mem20_dfZeroClose, rfl⟩⟩

/-- C7 amended: a qualifying day whose entry close is zero is not treated
as a per-record failure - the division in the source does not raise
(numpy float division by zero yields a non-finite value), so the loop
body never reaches its exception handler and the record for that day is
emitted like the record of every other qualifying day; the scan never
drops a qualifying day. -/
theorem c7_no_skip (df : Df) (vt pt : ℚ) (hp : ℕ) (t : ℕ)
    (ht : t ∈ breakoutDays df vt pt) :
    mkRecord df hp t ∈ (analyze_breakouts df vt pt hp).2 ∧
    ((analyze_breakouts df vt pt hp).2).length = (breakoutDays df vt pt).length :=
  ⟨List.mem_map_of_mem _ ht, List.length_map _ _⟩

/-- Witness for the amended C7 at the zero-close frame and its
zero-entry-price breakout day 20. -/
theorem c7_no_skip_witness :
    20 ∈ breakoutDays dfZeroClose 50 (-150) ∧
    (mkRecord dfZeroClose 10 20 ∈ (analyze_breakouts dfZeroClose 50 (-150) 10).2 ∧
     ((analyze_breakouts dfZeroClose 50 (-150) 10).2).length =
       (breakoutDays dfZeroClose 50 (-150)).length) :=
  ⟨mem20_dfZeroClose, c7_no_skip dfZeroClose 50 (-150) 10 20 mem20_dfZeroClose⟩

/-- C8 counterexample: invoked with the non-positive holding period 0 the
core neither fails fast nor rejects or clamps the parameter - on the
spike frame it returns a record sequence computed from the out-of-range
value: one record entering and exiting on day 20 with a 0 return (a
clamp to the minimum 1 would instead exit on day 21). -/
theorem c8_counterexample :
    (analyze_breakouts dfSpike 200 2 0).2.map
        (fun r => (r.Entry_Date, r.Exit_Date, r.Return_Pct)) = [(20, 20, 0)] := by
  rw [show (analyze_breakouts dfSpike 200 2 0).2 =
      (breakoutDays dfSpike 200 2).map (mkRecord dfSpike 0) from rfl,
    breakoutDays_dfSpike]
  norm_num [mkRecord, exitIdx, round2,
    show dfSpike.dateAt 20 = 20 from rfl, show dfSpike.cl 20 = 110 from rfl,
    show dfSpike.n = 25 from rfl]

/-- C8 amended: the core performs no parameter validation (the minimums
live only in the host widgets); it computes its output from the
parameters exactly as given - with holding period 0 every emitted record
exits on its own entry day at the entry price, and negative thresholds
are simply used in the comparisons. -/
theorem c8_no_validation (df : Df) (vt pt : ℚ) (r : TradeRecord)
    (hr : r ∈ (analyze_breakouts df vt pt 0).2) :
    r.Exit_Date = r.Entry_Date ∧ r.Exit_Price = r.Entry_Price := by
  obtain ⟨t, ht, rfl⟩ := List.mem_map.mp hr
  have htn : t < df.n := List.mem_range.mp (List.mem_filter.mp ht).1
  have he : exitIdx df 0 t = t := by rw [exitIdx]; omega
  constructor
  · show df.dateAt (exitIdx df 0 t) = df.dateAt t
    rw [he]
  · show round2 (df.cl (exitIdx df 0 t)) = round2 (df.cl t)
    rw [he]

/-- Witness for the amended C8 at the spike frame with holding period 0. -/
theorem c8_no_validation_witness :
    mkRecord dfSpike 0 20 ∈ (analyze_breakouts dfSpike 200 2 0).2 ∧
    ((mkRecord dfSpike 0 20).Exit_Date = (mkRecord dfSpike 0 20).Entry_Date ∧
     (mkRecord dfSpike 0 20).Exit_Price = (mkRecord dfSpike 0 20).Entry_Price) :=
  ⟨List.mem_map_of_mem _ mem20_dfSpike,
   c8_no_validation dfSpike 200 2 (mkRecord dfSpike 0 20)
     (List.mem_map_of_mem _ mem20_dfSpike)⟩

/-- C9 counterexample: the detector does not leave the frame of the
caller unchanged - on a one-row frame (which produces no breakout at
all) the call still adds the three derived columns to it. -/
theorem c9_counterexample : (analyze_breakouts dfOneRow 200 2 10).1 ≠ dfOneRow := by
  intro h
  have h2 := congrArg Df.Volume_MA20 h
  simp [analyze_breakouts, dfOneRow] at h2

/-- C9 amended: the mutation is exactly the assignment of the three
derived columns, each a pure function of the input columns alone; the
base date, close and volume columns are unchanged, and both the updated
frame and the record output are deterministic functions of the input and
parameters (no hidden state across runs). -/
theorem c9_mutation_frame (df : Df) (vt pt : ℚ) (hp : ℕ) :
    (analyze_breakouts df vt pt hp).1.date = df.date ∧
    (analyze_breakouts df vt pt hp).1.close = df.close ∧
    (analyze_breakouts df vt pt hp).1.volume = df.volume ∧
    (analyze_breakouts df vt pt hp).1.Volume_MA20 =
      some ((List.range df.n).map (volumeMA20At df)) ∧
    (analyze_breakouts df vt pt hp).1.Daily_Return =
      some ((List.range df.n).map (dailyReturnAt df)) ∧
    (analyze_breakouts df vt pt hp).1.Volume_Ratio =
      some ((List.range df.n).map (volumeRatioAt df)) :=
  ⟨rfl, rfl, rfl, rfl, rfl, rfl⟩

/-- C10: on a single-record collection the aggregator's standard
deviation is NaN (`none`), never the number 0 - the `N - 1` denominator
leaves it undefined for one sample and no branch substitutes zero - while
the other five fields are the defined values: one trade, win rate 100 or
0 by the sign of the stored return, and average, maximum and minimum all
equal to the stored return (which is a 2-decimal value for every record
the detector emits, the hypothesis here). -/
theorem c10_single_record_std_nan (r : TradeRecord)
    (h2 : round2 r.Return_Pct = r.Return_Pct) :
    (create_summary_stats [r]).Std_Dev = none ∧
    (create_summary_stats [r]).Std_Dev ≠ some (0 : ℝ) ∧
    (create_summary_stats [r]).Total_Trades = 1 ∧
    (create_summary_stats [r]).Win_Rate = (if 0 < r.Return_Pct then 100 else 0) ∧
    (create_summary_stats [r]).Average_Return = r.Return_Pct ∧
    (create_summary_stats [r]).Max_Return = r.Return_Pct ∧
    (create_summary_stats [r]).Min_Return = r.Return_Pct := by
  have hcs : create_summary_stats [r] = statsOfReturns [r.Return_Pct] := rfl
  have hstats := statsOfReturns_ne_nil [r.Return_Pct] (by simp)
  have hstd : seriesStd [r.Return_Pct] = none := rfl
  rw [hcs, hstats]
  refine ⟨by rw [hstd]; rfl, by rw [hstd]; simp, rfl, ?_, ?_, ?_, ?_⟩
  · by_cases hpos : 0 < r.Return_Pct
    · rw [if_pos hpos]
      have hc : ([r.Return_Pct].countP fun x => decide (0 < x)) = 1 := by
        simp [List.countP_cons, hpos]
      rw [hc]
      norm_num [round2, round_eq]
    · rw [if_neg hpos]
      have hc : ([r.Return_Pct].countP fun x => decide (0 < x)) = 0 := by
        simp [List.countP_cons, hpos]
      rw [hc]
      norm_num [round2]
  · show round2 ([r.Return_Pct].sum / ((1 : ℕ) : ℚ)) = r.Return_Pct
    simpa using h2
  · show round2 (listMax [r.Return_Pct]) = r.Return_Pct
    rw [show listMax [r.Return_Pct] = r.Return_Pct from rfl]
    exact h2
  · show round2 (listMin [r.Return_Pct]) = r.Return_Pct
    rw [show listMin [r.Return_Pct] = r.Return_Pct from rfl]
    exact h2

/-- Witness for C10 at a record with the 2-decimal stored return 5. -/
theorem c10_single_record_std_nan_witness :
    round2 ((⟨0, 1, 0, 1, 5, 1⟩ : TradeRecord).Return_Pct) =
      (⟨0, 1, 0, 1, 5, 1⟩ : TradeRecord).Return_Pct ∧
    (create_summary_stats [⟨0, 1, 0, 1, 5, 1⟩]).Std_Dev = none :=
  ⟨by norm_num [round2, round_eq],
   (c10_single_record_std_nan ⟨0, 1, 0, 1, 5, 1⟩ (by norm_num [round2, round_eq])).1⟩
